import Mathlib

/-!
Shallow embedding of the authentication core of the
`vite-react-fastapi-postgres-template` backend
(`backend/app/api/auth.py`, `backend/app/core/security.py`,
`backend/app/core/apple_auth.py`, `backend/app/models/user.py`,
`backend/app/config/auth.py`, `backend/app/core/config.py`).

Conventions of the embedding:
- Timestamps are `Nat` seconds (both `datetime.utcnow()` and
  `datetime.now(timezone.utc)` become a `now : Nat` parameter;
  `timedelta(minutes=m)` becomes `m * 60`, `timedelta(days=d)` becomes
  `d * 86400`).
- The database session is a `List UserRec`; `select(User).where(...)`
  followed by `scalar_one_or_none()` becomes `List.find?` (first match;
  equal to the SQL behaviour under the store uniqueness invariants, which
  appear as hypotheses where they matter).  SQL equality against a NULL
  column never matches, which `Option.beq` reproduces (`none == some x`
  is `false`).
- In-place mutation of a fetched ORM row followed by `commit()` becomes
  `updateUser` keyed by the row id.
- Raised `HTTPException(status_code, detail)` becomes
  `Except.error ⟨status_code, detail⟩`; endpoints that mutate the
  session return the post-request store as a second component (a raise
  rolls the transaction back, so the store is returned unchanged there).
- Externally computed values (UUIDs, random URL-safe tokens, bcrypt
  hashing, outcomes of network fetches, decoded provider JWTs) enter as
  explicit parameters, because the code obtains them from outside the
  program state.
-/

namespace AuthCore

/-- HTTPException as raised by the endpoints: a status code and a detail
string (`backend/app/api/auth.py`, `backend/app/core/apple_auth.py`). -/
structure HttpError where
  statusCode : Nat
  detail : String
deriving Repr, DecidableEq

/-- Row of the `users` table (`backend/app/models/user.py`).  The field
defaults mirror the column defaults applied on insert when the
constructor omits the column: `is_active` has `default=True`,
`is_verified` has `default=False`, all provider / credential columns are
nullable. -/
structure UserRec where
  id : String
  email : String
  fullName : Option String := none
  avatarUrl : Option String := none
  isActive : Bool := true
  isVerified : Bool := false
  googleId : Option String := none
  appleId : Option String := none
  hashedPassword : Option String := none
  emailVerificationToken : Option String := none
  emailVerificationExpires : Option Nat := none
deriving Repr, DecidableEq

/-- The user store visible to one request. -/
abbrev DB := List UserRec

/-- Process-wide settings (`backend/app/core/config.py`, class
`Settings`): the fields consumed by the authentication core. -/
structure Settings where
  secretKey : String
  algorithm : String
  accessTokenExpireMinutes : Nat
  refreshTokenExpireDays : Nat
  environment : String
  debug : Bool
  appleClientId : Option String
deriving Repr, DecidableEq

/-- Authentication provider policy (`backend/app/config/auth.py`,
class `AuthConfig`), flattened: `emailPasswordEnabled` is
`email_password.enabled`, `allowRegistration` is
`email_password.allow_registration`, `googleClientId` is
`google.client_id`, `allowNewUsers` is `magic_link.allow_new_users`,
`tokenExpireMinutes` is `magic_link.token_expire_minutes`, and so on. -/
structure AuthCfg where
  emailPasswordEnabled : Bool
  allowRegistration : Bool
  googleEnabled : Bool
  googleClientId : Option String
  appleEnabled : Bool
  appleClientId : Option String
  magicLinkEnabled : Bool
  allowNewUsers : Bool
  tokenExpireMinutes : Nat
deriving Repr, DecidableEq

/-- Python truthiness of an optional string (`bool(client_id)`): `None`
and the empty string are falsy. -/
def optStrTruthy : Option String → Bool
  | none => false
  | some s => !(s == "")

/-- `AuthConfig.is_provider_enabled` (`backend/app/config/auth.py`):
google and apple additionally require a truthy client id. -/
def isProviderEnabled (cfg : AuthCfg) (provider : String) : Bool :=
  if provider == "email-password" then cfg.emailPasswordEnabled
  else if provider == "google" then cfg.googleEnabled && optStrTruthy cfg.googleClientId
  else if provider == "apple" then cfg.appleEnabled && optStrTruthy cfg.appleClientId
  else if provider == "magic-link" then cfg.magicLinkEnabled
  else false

/-- Claims carried by a locally minted session JWT: the endpoints encode
`{"sub": str(user.id), "exp": expire}`. -/
structure JwtClaims where
  sub : Option String := none
  exp : Nat
deriving Repr, DecidableEq

/-- A signed JWT, abstracted as its payload plus the symmetric key used
by `jwt.encode`; `verify_token` accepts it iff the key is the process
secret and the `exp` claim has not passed. -/
structure Jwt where
  claims : JwtClaims
  key : String
deriving Repr, DecidableEq

/-- `create_access_token` (`backend/app/core/security.py`) with the
default expiry window: `sub` plus `now + access_token_expire_minutes`.
-/
def create_access_token (sub : String) (settings : Settings) (now : Nat) : Jwt :=
  { claims := { sub := some sub, exp := now + settings.accessTokenExpireMinutes * 60 },
    key := settings.secretKey }

/-- `create_refresh_token` (`backend/app/core/security.py`): `sub` plus
`now + refresh_token_expire_days`. -/
def create_refresh_token (sub : String) (settings : Settings) (now : Nat) : Jwt :=
  { claims := { sub := some sub, exp := now + settings.refreshTokenExpireDays * 86400 },
    key := settings.secretKey }

/-- `verify_token` (`backend/app/core/security.py`): `jose.jwt.decode`
with the process secret.  A wrong key is a signature failure; `jose`
raises `ExpiredSignatureError` when `exp < now` (zero leeway), so the
token is accepted iff `now ≤ exp`.  Failure is HTTP 401. -/
def verify_token (settings : Settings) (now : Nat) (token : Jwt) : Except HttpError JwtClaims :=
  if token.key == settings.secretKey && now ≤ token.claims.exp then
    .ok token.claims
  else
    .error ⟨401, "Could not validate credentials"⟩

/-- Lookup `select(User).where(User.email == email)` /
`scalar_one_or_none()`. -/
def findByEmail (db : DB) (email : String) : Option UserRec :=
  db.find? (fun u => u.email == email)

/-- Lookup `select(User).where(User.id == user_id)`. -/
def findById (db : DB) (uid : String) : Option UserRec :=
  db.find? (fun u => u.id == uid)

/-- In-place mutation of the row with the given id, then `commit()`. -/
def updateUser (db : DB) (uid : String) (f : UserRec → UserRec) : DB :=
  db.map (fun u => if u.id == uid then f u else u)

/-- The `TokenResponse` body returned by every session-issuing endpoint.
-/
structure TokenResponse where
  accessToken : Jwt
  refreshToken : Jwt
  expiresIn : Nat
deriving Repr, DecidableEq

/-- The token pair every successful login / verify / refresh endpoint
builds: fresh access and refresh tokens for `uid` and
`expires_in = access_token_expire_minutes * 60`. -/
def mkTokenResponse (settings : Settings) (uid : String) (now : Nat) : TokenResponse :=
  { accessToken := create_access_token uid settings now,
    refreshToken := create_refresh_token uid settings now,
    expiresIn := settings.accessTokenExpireMinutes * 60 }

/-- `POST /login/email` (`login_email`, `backend/app/api/auth.py`).
`verify_password` is the external bcrypt check, passed in as
`hashVerify`.  The store is never mutated by this endpoint. -/
def login_email (cfg : AuthCfg) (settings : Settings)
    (hashVerify : String → String → Bool) (db : DB) (now : Nat)
    (email password : String) : Except HttpError TokenResponse :=
  if !(isProviderEnabled cfg "email-password") then
    .error ⟨403, "Email/password authentication is disabled"⟩
  else
    match findByEmail db email with
    | none => .error ⟨401, "Invalid email or password"⟩
    | some user =>
      match user.hashedPassword with
      | none => .error ⟨401, "Invalid email or password"⟩
      | some hp =>
        if !(hashVerify password hp) then
          .error ⟨401, "Invalid email or password"⟩
        else if !user.isActive then
          .error ⟨401, "Account is disabled"⟩
        else
          .ok (mkTokenResponse settings user.id now)

/-- `POST /register/email` (`register_email`, `backend/app/api/auth.py`).
`hashFn` is the external `get_password_hash` (bcrypt); `newId` the
`uuid4` generated on insert.  On any raise the transaction commits
nothing, so the original store is returned. -/
def register_email (cfg : AuthCfg) (hashFn : String → String)
    (db : DB) (newId email password : String) (fullName : Option String) :
    Except HttpError UserRec × DB :=
  if !(isProviderEnabled cfg "email-password") then
    (.error ⟨403, "Email/password authentication is disabled"⟩, db)
  else if !cfg.allowRegistration then
    (.error ⟨403, "Email registration is disabled"⟩, db)
  else
    match findByEmail db email with
    | some _ => (.error ⟨400, "Email already registered"⟩, db)
    | none =>
      let newUser : UserRec :=
        { id := newId, email := email, fullName := fullName,
          hashedPassword := some (hashFn password), isVerified := false }
      (.ok newUser, db ++ [newUser])

/-- `POST /magic-link/request` (`request_magic_link`,
`backend/app/api/auth.py`).  `token` is the externally generated
`secrets.token_urlsafe(32)`, `newId` the `uuid4` of a created row.  The
created row passes `email`, `is_verified=False` and the token fields to
the constructor only, so the `is_active` column takes its default.  On
success the endpoint returns `MessageResponse`. -/
def request_magic_link (cfg : AuthCfg) (db : DB) (token : String)
    (now : Nat) (newId email : String) : Except HttpError String × DB :=
  if !(isProviderEnabled cfg "magic-link") then
    (.error ⟨403, "Magic link authentication is disabled"⟩, db)
  else
    let expires := now + cfg.tokenExpireMinutes * 60
    match findByEmail db email with
    | none =>
      if !cfg.allowNewUsers then
        (.error ⟨404, "User not found and new user registration via magic link is disabled"⟩, db)
      else
        (.ok "Magic link sent to email",
         db ++ [{ id := newId, email := email, isVerified := false,
                  emailVerificationToken := some token,
                  emailVerificationExpires := some expires }])
    | some user =>
      (.ok "Magic link sent to email",
       updateUser db user.id (fun u =>
         { u with emailVerificationToken := some token,
                  emailVerificationExpires := some expires }))

/-- The row update performed by a successful `verify_magic_link`:
`is_verified = True`, token and expiry cleared, `is_active = True`. -/
def clearAndActivate (db : DB) (uid : String) : DB :=
  updateUser db uid (fun u =>
    { u with isVerified := true,
             emailVerificationToken := none,
             emailVerificationExpires := none,
             isActive := true })

/-- Lookup `select(User).where(User.email_verification_token == token)`.
The submitted token is a string, so a row whose column is NULL never
matches. -/
def findByVerificationToken (db : DB) (token : String) : Option UserRec :=
  db.find? (fun u => u.emailVerificationToken == some token)

/-- `POST /magic-link/verify` (`verify_magic_link`,
`backend/app/api/auth.py`).  `not user.email_verification_expires` is
Python truthiness on an optional datetime, i.e. a `none` check; the
expiry test is `datetime.utcnow() > expires`. -/
def verify_magic_link (cfg : AuthCfg) (settings : Settings) (db : DB)
    (now : Nat) (token : String) : Except HttpError TokenResponse × DB :=
  if !(isProviderEnabled cfg "magic-link") then
    (.error ⟨403, "Magic link authentication is disabled"⟩, db)
  else
    match findByVerificationToken db token with
    | none => (.error ⟨400, "Invalid or expired token"⟩, db)
    | some user =>
      match user.emailVerificationExpires with
      | none => (.error ⟨400, "Invalid or expired token"⟩, db)
      | some expires =>
        if expires < now then
          (.error ⟨400, "Token has expired"⟩, db)
        else
          (.ok (mkTokenResponse settings user.id now), clearAndActivate db user.id)

/-- Lookup `select(User).where(User.google_id == google_id)`. -/
def findByGoogleId (db : DB) (gid : String) : Option UserRec :=
  db.find? (fun u => u.googleId == some gid)

/-- Lookup `select(User).where(User.apple_id == apple_user_id)`. -/
def findByAppleId (db : DB) (aid : String) : Option UserRec :=
  db.find? (fun u => u.appleId == some aid)

/-- Find-or-create block of `google_auth` (`backend/app/api/auth.py`,
after the token has been verified): reuse the row matching the Google
subject id; otherwise link the subject id onto the row matching the
email; otherwise insert a new row with `is_verified=True`,
`is_active=True`.  Always mints a pair for the resolved row id. -/
def googleReconcile (settings : Settings) (db : DB) (newId : String)
    (googleId email : String) (name picture : Option String) (now : Nat) :
    DB × TokenResponse :=
  match findByGoogleId db googleId with
  | some user => (db, mkTokenResponse settings user.id now)
  | none =>
    match findByEmail db email with
    | some user =>
      (updateUser db user.id (fun u => { u with googleId := some googleId }),
       mkTokenResponse settings user.id now)
    | none =>
      let newUser : UserRec :=
        { id := newId, email := email, fullName := name, avatarUrl := picture,
          googleId := some googleId, isVerified := true, isActive := true }
      (db ++ [newUser], mkTokenResponse settings newId now)

/-- Find-or-create block of `apple_auth` (`backend/app/api/auth.py`):
same shape as the Google one, against `apple_id`, without an avatar. -/
def appleReconcile (settings : Settings) (db : DB) (newId : String)
    (appleUserId email : String) (name : Option String) (now : Nat) :
    DB × TokenResponse :=
  match findByAppleId db appleUserId with
  | some user => (db, mkTokenResponse settings user.id now)
  | none =>
    match findByEmail db email with
    | some user =>
      (updateUser db user.id (fun u => { u with appleId := some appleUserId }),
       mkTokenResponse settings user.id now)
    | none =>
      let newUser : UserRec :=
        { id := newId, email := email, fullName := name,
          appleId := some appleUserId, isVerified := true, isActive := true }
      (db ++ [newUser], mkTokenResponse settings newId now)

/-- The normalized payload `google_auth` reads off a successfully
decoded Google ID token (`idinfo`). -/
structure GoogleIdInfo where
  iss : String
  sub : String
  email : String
  name : Option String := none
  picture : Option String := none
deriving Repr, DecidableEq

/-- Outcome of `id_token.verify_oauth2_token` (google-auth library),
which fetches the Google certificates itself.  `valueError` covers every
`ValueError` the call can raise — invalid signature, wrong audience,
expired token, and also an unparsable certificate response, because
`json.JSONDecodeError` subclasses `ValueError`.  `transportError` is a
network failure fetching the certificates:
`google.auth.exceptions.TransportError`, which is *not* a `ValueError`.
-/
inductive GoogleVerify where
  | ok (info : GoogleIdInfo)
  | valueError (msg : String)
  | transportError (msg : String)
deriving Repr, DecidableEq

/-- Result of one endpoint call as the HTTP layer sees it: a response, a
raised `HTTPException`, or an exception that escaped every handler of
the endpoint (surfaced by the framework as an internal server error). -/
inductive EndpointResult (α : Type) where
  | ok (a : α)
  | httpError (e : HttpError)
  | unhandled (msg : String)
deriving Repr, DecidableEq

/-- `POST /google` (`google_auth`, `backend/app/api/auth.py`).  The
`try` block around the verification catches only `ValueError` (mapping
it to HTTP 400, and the issuer check raises `ValueError` too); a
`TransportError` from the certificate fetch matches no handler and
escapes. -/
def google_auth (cfg : AuthCfg) (settings : Settings) (gv : GoogleVerify)
    (db : DB) (newId : String) (now : Nat) :
    EndpointResult TokenResponse × DB :=
  if !(isProviderEnabled cfg "google") then
    (.httpError ⟨403, "Google authentication is disabled"⟩, db)
  else
    match gv with
    | .valueError msg => (.httpError ⟨400, "Invalid Google token: " ++ msg⟩, db)
    | .transportError msg => (.unhandled msg, db)
    | .ok info =>
      if !(info.iss == "accounts.google.com") && !(info.iss == "https://accounts.google.com") then
        (.httpError ⟨400, "Invalid Google token: Wrong issuer."⟩, db)
      else
        let r := googleReconcile settings db newId info.sub info.email info.name info.picture now
        (.ok r.2, r.1)

/-- `POST /refresh` (`refresh_token`, `backend/app/api/auth.py`) before
its outer `except Exception` handler: decode the submitted token, check
the `sub` claim is truthy (`if not user_id`), look the user up by id and
require it active, then mint a fresh pair.  No token-kind claim exists,
so nothing here distinguishes access from refresh tokens. -/
def refreshInner (settings : Settings) (db : DB) (now : Nat) (token : Jwt) :
    Except HttpError TokenResponse :=
  match verify_token settings now token with
  | .error e => .error e
  | .ok payload =>
    match payload.sub with
    | none => .error ⟨401, "Invalid refresh token"⟩
    | some uid =>
      if uid == "" then .error ⟨401, "Invalid refresh token"⟩
      else
        match findById db uid with
        | none => .error ⟨401, "User not found or inactive"⟩
        | some user =>
          if !user.isActive then .error ⟨401, "User not found or inactive"⟩
          else .ok (mkTokenResponse settings user.id now)

/-- `POST /refresh` as surfaced: the whole body sits in a
`try ... except Exception` that replaces every failure — including the
`HTTPException`s raised inside — with 401 "Invalid refresh token". -/
def refresh_token (settings : Settings) (db : DB) (now : Nat) (token : Jwt) :
    Except HttpError TokenResponse :=
  match refreshInner settings db now token with
  | .error _ => .error ⟨401, "Invalid refresh token"⟩
  | .ok r => .ok r

namespace Apple

/-- A raised Python exception as it matters to the Apple verifier
call-sites: an `HTTPException`, or the bare `ValueError` raised by
`verify_development_token` in production. -/
inductive PyErr where
  | httpExc (statusCode : Nat) (detail : String)
  | valueError (msg : String)
deriving Repr, DecidableEq

/-- An Apple identity token as `verify_production_token` examines it:
the `kid` header, whether its RS256 signature verifies against the key
the JWKS client resolves for it, and the payload claims the decode
options check (`aud`, `iss`, `exp`) or extract (`sub`, `email`). -/
structure AppleToken where
  kid : Option String
  sigValid : Bool
  aud : Option String
  iss : String
  exp : Nat
  sub : Option String := none
  email : Option String := none
  emailVerified : Bool := false
deriving Repr, DecidableEq

/-- Outcome of `PyJWKClient.get_signing_key_from_jwt`, which performs
its own fetch of Apple's JWKS: either it resolves a signing key, or it
raises `PyJWKClientError` (network failure, unparsable JWKS, unknown
`kid`).  `PyJWKClientError` derives from `PyJWTError`, not from
`InvalidTokenError`. -/
inductive KeyFetch where
  | success
  | failure (msg : String)
deriving Repr, DecidableEq

/-- `AppleJWTVerifier.verify_development_token`
(`backend/app/core/apple_auth.py`): refuses to run in production with a
bare `ValueError`; otherwise decodes without signature or audience
checks, enforcing only expiry (pyjwt, zero leeway: expired when
`exp ≤ now`), mapping `InvalidTokenError` to HTTP 400. -/
def verify_development_token (settings : Settings) (now : Nat)
    (tok : AppleToken) : Except PyErr AppleToken :=
  if settings.environment == "production" then
    .error (.valueError "Development token verification cannot be used in production")
  else if now < tok.exp then
    .ok tok
  else
    .error (.httpExc 400 "Invalid token: Signature has expired")

/-- `AppleJWTVerifier.verify_production_token`
(`backend/app/core/apple_auth.py`).  Everything runs inside one `try`:
`except pyjwt.InvalidTokenError` maps signature / audience / issuer /
expiry failures of `pyjwt.decode` to HTTP 401, and the trailing
`except Exception` maps everything else — the `HTTPException(400)`
raised for a missing `kid` and the `PyJWKClientError` from the key
fetch alike — to HTTP 400 `"Token verification failed: ..."`.  The
audience compared is `settings.apple_client_id` (pyjwt treats a missing
`aud` claim against a provided audience, and vice versa, as failures,
matching `Option` equality). -/
def verify_production_token (settings : Settings) (fetch : KeyFetch)
    (now : Nat) (tok : AppleToken) : Except PyErr AppleToken :=
  match tok.kid with
  | none => .error (.httpExc 400 "Token verification failed: 400: Token missing key ID")
  | some _ =>
    match fetch with
    | .failure msg => .error (.httpExc 400 ("Token verification failed: " ++ msg))
    | .success =>
      if tok.sigValid && tok.aud == settings.appleClientId
          && tok.iss == "https://appleid.apple.com" && now < tok.exp then
        .ok tok
      else
        .error (.httpExc 401 "Invalid Apple token: invalid token")

/-- `AppleJWTVerifier.verify_token` (`backend/app/core/apple_auth.py`):
the development path runs only when the environment is exactly
"development" *and* the debug flag is set; every other combination goes
through full production verification. -/
def verify_token (settings : Settings) (fetch : KeyFetch) (now : Nat)
    (tok : AppleToken) : Except PyErr AppleToken :=
  if settings.environment == "development" && settings.debug then
    verify_development_token settings now tok
  else
    verify_production_token settings fetch now tok

/-- Outcome of the `httpx` GET against the JWKS URL inside
`get_apple_public_keys`: a parsed body, an `httpx.RequestError`, or a
`json.JSONDecodeError` from `response.json()`. -/
inductive HttpFetch where
  | ok (keys : String)
  | requestError (msg : String)
  | jsonDecodeError
deriving Repr, DecidableEq

/-- `AppleJWTVerifier.get_apple_public_keys`
(`backend/app/core/apple_auth.py`): serve the cache while
`now < cache_expiry` (Python truthiness on the cached dict modelled by
`Option`), else fetch; a `RequestError` or `JSONDecodeError` becomes
HTTP 503.  Returns the keys with the refreshed cache state.  This
helper is defined in the module but the verification path never calls
it: `verify_production_token` resolves keys through `PyJWKClient`
instead. -/
def get_apple_public_keys (cachedKeys : Option String) (cacheExpiry : Nat)
    (now : Nat) (fetch : HttpFetch) :
    Except HttpError (String × Option String × Nat) :=
  match cachedKeys with
  | some keys =>
    if now < cacheExpiry then .ok (keys, some keys, cacheExpiry)
    else
      match fetch with
      | .ok k => .ok (k, some k, now + 3600)
      | .requestError msg =>
        .error ⟨503, "Failed to fetch Apple public keys: " ++ msg⟩
      | .jsonDecodeError =>
        .error ⟨503, "Invalid response from Apple keys endpoint"⟩
  | none =>
    match fetch with
    | .ok k => .ok (k, some k, now + 3600)
    | .requestError msg =>
      .error ⟨503, "Failed to fetch Apple public keys: " ++ msg⟩
    | .jsonDecodeError =>
      .error ⟨503, "Invalid response from Apple keys endpoint"⟩

/-- Failure prefix of `POST /apple` (`apple_auth`,
`backend/app/api/auth.py`): the error, if any, with which the endpoint
aborts before reaching its find-or-create block.  `except HTTPException`
re-raises verifier `HTTPException`s unchanged; the trailing
`except Exception` wraps anything else (such as the production
`ValueError` of the development verifier) into HTTP 400.
`extract_user_info` then rejects a payload without `sub`. -/
def appleLoginFailure (cfg : AuthCfg) (settings : Settings)
    (fetch : KeyFetch) (now : Nat) (tok : AppleToken) : Option HttpError :=
  if !(isProviderEnabled cfg "apple") then
    some ⟨403, "Apple authentication is disabled"⟩
  else
    match verify_token settings fetch now tok with
    | .error (.httpExc c d) => some ⟨c, d⟩
    | .error (.valueError msg) => some ⟨400, "Apple authentication failed: " ++ msg⟩
    | .ok t =>
      match t.sub with
      | none => some ⟨400, "Missing user ID in Apple token"⟩
      | some _ => none

end Apple

/-! Concrete instances used by witnesses and counterexamples. -/

/-- Development-mode settings instance. -/
def devSettings : Settings :=
  { secretKey := "sk", algorithm := "HS256", accessTokenExpireMinutes := 30,
    refreshTokenExpireDays := 7, environment := "development", debug := true,
    appleClientId := some "app.client" }

/-- Production-mode settings instance (debug left on, to exercise the
hard disable). -/
def prodSettings : Settings :=
  { secretKey := "sk", algorithm := "HS256", accessTokenExpireMinutes := 30,
    refreshTokenExpireDays := 7, environment := "production", debug := true,
    appleClientId := some "app.client" }

/-- Policy instance with every provider enabled and permissive options.
-/
def cfgAll : AuthCfg :=
  { emailPasswordEnabled := true, allowRegistration := true,
    googleEnabled := true, googleClientId := some "gcid",
    appleEnabled := true, appleClientId := some "app.client",
    magicLinkEnabled := true, allowNewUsers := true, tokenExpireMinutes := 15 }

/-- Policy instance with magic-link new users disallowed. -/
def cfgNoNewUsers : AuthCfg :=
  { cfgAll with allowNewUsers := false }

/-- A password-based active account (the `is_active` column default). -/
def userPw : UserRec :=
  { id := "u1", email := "a@x", hashedPassword := some "pw" }

/-- Store holding just the password account. -/
def dbPw : DB := [userPw]

/-- A deactivated account already linked to Google subject `g1`. -/
def userInactiveGoogle : UserRec :=
  { id := "u1", email := "victim@x", isActive := false, googleId := some "g1" }

/-- A deactivated account holding a live magic-link token `tokT` expiring
at 1000. -/
def userInactiveToken : UserRec :=
  { id := "u1", email := "m@x", isActive := false,
    emailVerificationToken := some "tokT",
    emailVerificationExpires := some 1000 }

/-- A structurally valid Apple identity token for the production
verifier under `prodSettings`. -/
def appleTokOk : Apple.AppleToken :=
  { kid := some "kid1", sigValid := true, aud := some "app.client",
    iss := "https://appleid.apple.com", exp := 1000, sub := some "apple-sub",
    email := some "a@x" }

/-! Theorems. -/

/-- C6: a magic-link request for an unknown email creates a pending user
when new users are allowed — unverified, holding the fresh token and
expiry, but with `is_active = true` (the column default, since the
constructor does not pass `is_active`); when new users are disallowed it
fails 404 and the store is unchanged. -/
theorem magic_request_new_user (cfg : AuthCfg) (db : DB)
    (token : String) (now : Nat) (newId email : String)
    (hen : isProviderEnabled cfg "magic-link" = true)
    (hnone : findByEmail db email = none) :
    (cfg.allowNewUsers = true →
       request_magic_link cfg db token now newId email =
         (.ok "Magic link sent to email",
          db ++ [{ id := newId, email := email, isVerified := false, isActive := true,
                   emailVerificationToken := some token,
                   emailVerificationExpires := some (now + cfg.tokenExpireMinutes * 60) }])) ∧
    (cfg.allowNewUsers = false →
       request_magic_link cfg db token now newId email =
         (.error ⟨404, "User not found and new user registration via magic link is disabled"⟩,
          db)) := by
  constructor
  · intro hallow
    simp [request_magic_link, hen, hnone, hallow]
  · intro hdeny
    simp [request_magic_link, hen, hnone, hdeny]

/-- C6 witness: both branches of the theorem at concrete inputs. -/
theorem magic_request_new_user_witness :
    request_magic_link cfgAll [] "tok" 0 "u9" "new@x" =
      (.ok "Magic link sent to email",
       [{ id := "u9", email := "new@x", isVerified := false, isActive := true,
          emailVerificationToken := some "tok",
          emailVerificationExpires := some 900 }]) ∧
    request_magic_link cfgNoNewUsers [] "tok" 0 "u9" "new@x" =
      (.error ⟨404, "User not found and new user registration via magic link is disabled"⟩,
       []) :=
  ⟨(magic_request_new_user cfgAll [] "tok" 0 "u9" "new@x" (by decide) (by decide)).1 (by decide),
   (magic_request_new_user cfgNoNewUsers [] "tok" 0 "u9" "new@x" (by decide) (by decide)).2 (by decide)⟩

/-- C6 counterexample: the pending user created for a brand-new email is
*active* — the claim asserts it is created inactive, but the constructor
call in `request_magic_link` omits `is_active`, so the column default
`True` applies. -/
theorem magic_request_created_user_is_active :
    (request_magic_link cfgAll [] "tok" 0 "u9" "new@x").2.map
        (fun u => (u.email, u.isActive, u.isVerified)) =
      [("new@x", true, false)] := by decide

/-- C7: registering an email that already has a record fails with the
duplicate-email error (HTTP 400, detail "Email already registered") and
returns the store unchanged; on a fresh email the stored record holds
exactly the hasher output for the password — never the plaintext
field — and starts unverified. -/
theorem register_email_conflict_and_hash (cfg : AuthCfg)
    (hashFn : String → String) (db : DB) (newId email password : String)
    (fullName : Option String)
    (hen : isProviderEnabled cfg "email-password" = true)
    (hreg : cfg.allowRegistration = true) :
    (∀ u, findByEmail db email = some u →
       register_email cfg hashFn db newId email password fullName =
         (.error ⟨400, "Email already registered"⟩, db)) ∧
    (findByEmail db email = none →
       ∃ newUser,
         register_email cfg hashFn db newId email password fullName =
           (.ok newUser, db ++ [newUser]) ∧
         newUser.hashedPassword = some (hashFn password) ∧
         newUser.isVerified = false ∧
         newUser.email = email) := by
  constructor
  · intro u hu
    simp [register_email, hen, hreg, hu]
  · intro hnone
    refine ⟨{ id := newId, email := email, fullName := fullName,
              hashedPassword := some (hashFn password), isVerified := false },
            ?_, rfl, rfl, rfl⟩
    simp [register_email, hen, hreg, hnone]

/-- C7 witness: the conflict branch and the creation branch at concrete
inputs. -/
theorem register_email_conflict_and_hash_witness :
    register_email cfgAll (fun p => "h:" ++ p) dbPw "u2" "a@x" "pw2" none =
      (.error ⟨400, "Email already registered"⟩, dbPw) ∧
    ∃ newUser,
      register_email cfgAll (fun p => "h:" ++ p) [] "u2" "b@x" "pw2" none =
        (.ok newUser, [] ++ [newUser]) ∧
      newUser.hashedPassword = some ("h:" ++ "pw2") ∧
      newUser.isVerified = false ∧
      newUser.email = "b@x" :=
  ⟨(register_email_conflict_and_hash cfgAll (fun p => "h:" ++ p) dbPw "u2" "a@x" "pw2" none
      (by decide) (by decide)).1 userPw (by decide),
   (register_email_conflict_and_hash cfgAll (fun p => "h:" ++ p) [] "u2" "b@x" "pw2" none
      (by decide) (by decide)).2 (by decide)⟩

/-- C4: when the environment is "production" the development
verification path is hard-disabled: `verify_development_token` fails
closed with its production `ValueError` for every token, the entry point
`verify_token` routes to the production verifier regardless of the debug
flag, and the production verifier yields a decoded payload only when the
signing-key fetch succeeded, the signature verifies, the audience equals
the configured client id, the issuer is exactly Apple and the token is
unexpired. -/
theorem apple_production_fails_closed (settings : Settings)
    (fetch : Apple.KeyFetch) (now : Nat) (tok : Apple.AppleToken)
    (hprod : settings.environment = "production") :
    Apple.verify_development_token settings now tok =
      .error (.valueError "Development token verification cannot be used in production") ∧
    Apple.verify_token settings fetch now tok =
      Apple.verify_production_token settings fetch now tok ∧
    (∀ t, Apple.verify_production_token settings fetch now tok = .ok t →
       t = tok ∧ fetch = .success ∧ tok.kid ≠ none ∧ tok.sigValid = true ∧
       tok.aud = settings.appleClientId ∧
       tok.iss = "https://appleid.apple.com" ∧ now < tok.exp) := by
  refine ⟨?_, ?_, ?_⟩
  · simp [Apple.verify_development_token, hprod]
  · simp [Apple.verify_token, hprod]
  · intro t ht
    cases hkid : tok.kid with
    | none => simp [Apple.verify_production_token, hkid] at ht
    | some k =>
      cases fetch with
      | failure msg => simp [Apple.verify_production_token, hkid] at ht
      | success =>
        rw [Apple.verify_production_token] at ht
        simp only [hkid] at ht
        by_cases hcond : (tok.sigValid && tok.aud == settings.appleClientId
            && tok.iss == "https://appleid.apple.com" && decide (now < tok.exp)) = true
        · rw [if_pos hcond] at ht
          simp only [Except.ok.injEq] at ht
          simp only [Bool.and_eq_true, beq_iff_eq, decide_eq_true_eq] at hcond
          exact ⟨ht.symm, rfl, by simp [hkid], hcond.1.1.1, hcond.1.1.2, hcond.1.2, hcond.2⟩
        · rw [if_neg hcond] at ht
          exact absurd ht (by simp)

/-- C4 witness: the theorem under `prodSettings` on a concrete valid
token: the development verifier refuses, the entry point equals the
production verifier, and the concrete successful verification implies
the validated facts. -/
theorem apple_production_fails_closed_witness :
    Apple.verify_development_token prodSettings 0 appleTokOk =
      .error (.valueError "Development token verification cannot be used in production") ∧
    Apple.verify_token prodSettings .success 0 appleTokOk =
      Apple.verify_production_token prodSettings .success 0 appleTokOk ∧
    appleTokOk.sigValid = true ∧ appleTokOk.aud = prodSettings.appleClientId ∧
    appleTokOk.iss = "https://appleid.apple.com" ∧ (0 : Nat) < appleTokOk.exp :=
  have h := apple_production_fails_closed prodSettings .success 0 appleTokOk rfl
  have hok := h.2.2 appleTokOk rfl
  ⟨h.1, h.2.1, hok.2.2.2.1, hok.2.2.2.2.1, hok.2.2.2.2.2.1, hok.2.2.2.2.2.2⟩

/-- C5 counterexample: with Apple enabled, production settings and a
token whose header carries a key id, a key-fetch failure
("connection refused") makes the Apple login abort with HTTP 400 — a
client-error status, not the 502/503 service-unavailable class the
claim requires: `PyJWKClient` failures are swallowed by the generic
`except Exception` handler of `verify_production_token`. -/
theorem apple_keyfetch_failure_is_400 :
    Apple.appleLoginFailure cfgAll prodSettings (.failure "connection refused") 0 appleTokOk =
      some ⟨400, "Token verification failed: connection refused"⟩ ∧
    (∀ e, Apple.appleLoginFailure cfgAll prodSettings (.failure "connection refused") 0 appleTokOk =
       some e → e.statusCode ≠ 502 ∧ e.statusCode ≠ 503) := by
  constructor
  · decide
  · intro e he
    rw [show Apple.appleLoginFailure cfgAll prodSettings (.failure "connection refused") 0 appleTokOk =
          some ⟨400, "Token verification failed: connection refused"⟩ from by decide] at he
    cases he
    exact ⟨by decide, by decide⟩

/-- C5 amended: only the unused helper `get_apple_public_keys` maps a
key-fetch failure (network error or unparsable response) to 503; the
verification paths do not: the Apple production verifier surfaces a
`PyJWKClient` key-fetch failure as HTTP 400 (client-error class), and
the Google endpoint catches only `ValueError` — so an unparsable
certificate response (a `json.JSONDecodeError`, which is a `ValueError`)
becomes HTTP 400 while a transport failure escapes every handler and
surfaces as an internal error, not a 502/503. -/
theorem keyfetch_error_classes (cfg : AuthCfg) (settings : Settings)
    (db : DB) (newId msg : String) (cacheExpiry now : Nat)
    (tok : Apple.AppleToken) (k : String)
    (hkid : tok.kid = some k)
    (hgoog : isProviderEnabled cfg "google" = true) :
    Apple.get_apple_public_keys none cacheExpiry now (.requestError msg) =
      .error ⟨503, "Failed to fetch Apple public keys: " ++ msg⟩ ∧
    Apple.get_apple_public_keys none cacheExpiry now .jsonDecodeError =
      .error ⟨503, "Invalid response from Apple keys endpoint"⟩ ∧
    Apple.verify_production_token settings (.failure msg) now tok =
      .error (.httpExc 400 ("Token verification failed: " ++ msg)) ∧
    google_auth cfg settings (.valueError msg) db newId now =
      (.httpError ⟨400, "Invalid Google token: " ++ msg⟩, db) ∧
    google_auth cfg settings (.transportError msg) db newId now =
      (.unhandled msg, db) := by
  refine ⟨rfl, rfl, ?_, ?_, ?_⟩
  · simp [Apple.verify_production_token, hkid]
  · simp [google_auth, hgoog]
  · simp [google_auth, hgoog]

/-- C5 amended witness: the theorem at concrete inputs. -/
theorem keyfetch_error_classes_witness :
    Apple.get_apple_public_keys none 0 5 (.requestError "down") =
      .error ⟨503, "Failed to fetch Apple public keys: " ++ "down"⟩ ∧
    Apple.verify_production_token prodSettings (.failure "down") 5 appleTokOk =
      .error (.httpExc 400 ("Token verification failed: " ++ "down")) ∧
    google_auth cfgAll prodSettings (.transportError "down") [] "u9" 5 =
      (.unhandled "down", []) :=
  have h := keyfetch_error_classes cfgAll prodSettings [] "u9" "down" 0 5 appleTokOk
    "kid1" (by decide) (by decide)
  ⟨h.1, h.2.2.1, h.2.2.2.2⟩

/-- C8: with the email-password provider enabled, password login fails
with an unauthorized (401) error exactly when the account does not
exist, has no stored password hash, the password does not verify, or the
account is inactive; in every other case it returns a freshly minted
access/refresh pair for the account. -/
theorem login_email_unauthorized_iff (cfg : AuthCfg) (settings : Settings)
    (hashVerify : String → String → Bool) (db : DB) (now : Nat)
    (email password : String)
    (hen : isProviderEnabled cfg "email-password" = true) :
    ((∃ err, login_email cfg settings hashVerify db now email password = .error err ∧
        err.statusCode = 401) ↔
      (findByEmail db email = none ∨
       ∃ u, findByEmail db email = some u ∧
         (u.hashedPassword = none ∨
          (∃ hp, u.hashedPassword = some hp ∧ hashVerify password hp = false) ∨
          u.isActive = false))) ∧
    (∀ u hp, findByEmail db email = some u → u.hashedPassword = some hp →
       hashVerify password hp = true → u.isActive = true →
       login_email cfg settings hashVerify db now email password =
         .ok (mkTokenResponse settings u.id now)) := by
  constructor
  · cases hfind : findByEmail db email with
    | none => simp [login_email, hen, hfind]
    | some u =>
      cases hhp : u.hashedPassword with
      | none => simp [login_email, hen, hfind, hhp]
      | some hp =>
        cases hver : hashVerify password hp with
        | false => simp [login_email, hen, hfind, hhp, hver]
        | true =>
          cases hact : u.isActive with
          | false => simp [login_email, hen, hfind, hhp, hver, hact]
          | true => simp [login_email, hen, hfind, hhp, hver, hact]
  · intro u hp hu hhp hver hact
    simp [login_email, hen, hu, hhp, hver, hact]

/-- C8 witness: the 401 characterization and the success case on `dbPw`
with an equality hasher — wrong password is unauthorized, right password
yields the pair. -/
theorem login_email_unauthorized_iff_witness :
    (∃ err, login_email cfgAll devSettings (fun p h => p == h) dbPw 0 "a@x" "wrong" =
        .error err ∧ err.statusCode = 401) ∧
    login_email cfgAll devSettings (fun p h => p == h) dbPw 0 "a@x" "pw" =
      .ok (mkTokenResponse devSettings "u1" 0) :=
  ⟨((login_email_unauthorized_iff cfgAll devSettings (fun p h => p == h) dbPw 0 "a@x" "wrong"
       (by decide)).1).mpr
     (Or.inr ⟨userPw, by decide, Or.inr (Or.inl ⟨"pw", rfl, by decide⟩)⟩),
   (login_email_unauthorized_iff cfgAll devSettings (fun p h => p == h) dbPw 0 "a@x" "pw"
       (by decide)).2 userPw "pw" (by decide) rfl (by decide) rfl⟩

/-- C9: session refresh does not distinguish token kinds — any token
signed with the process secret whose `exp` has not passed and whose
`sub` claim names an existing active user is accepted and exchanged for
a fresh access/refresh pair; in particular a token produced by
`create_access_token` is accepted whenever it is unexpired. -/
theorem refresh_accepts_access_token (settings : Settings) (db : DB)
    (now : Nat) (tok : Jwt) (uid : String) (u : UserRec)
    (hkey : tok.key = settings.secretKey)
    (hexp : now ≤ tok.claims.exp)
    (hsub : tok.claims.sub = some uid)
    (hne : uid ≠ "")
    (hfind : findById db uid = some u)
    (hact : u.isActive = true) :
    refresh_token settings db now tok = .ok (mkTokenResponse settings u.id now) ∧
    (∀ uid2 u2 t0, uid2 ≠ "" → findById db uid2 = some u2 → u2.isActive = true →
       now ≤ t0 + settings.accessTokenExpireMinutes * 60 →
       refresh_token settings db now (create_access_token uid2 settings t0) =
         .ok (mkTokenResponse settings u2.id now)) := by
  have hne2 : (uid == "") = false := by simp [hne]
  constructor
  · simp [refresh_token, refreshInner, verify_token, hkey, hexp, hsub, hne2, hfind, hact]
  · intro uid2 u2 t0 hne3 hfind2 hact2 hexp2
    have hne4 : (uid2 == "") = false := by simp [hne3]
    simp [refresh_token, refreshInner, verify_token, create_access_token,
          hne4, hfind2, hact2, hexp2]

/-- C9 witness: an unexpired *access* token for the active user `u1` is
accepted by refresh and yields a fresh pair. -/
theorem refresh_accepts_access_token_witness :
    refresh_token devSettings dbPw 5 (create_access_token "u1" devSettings 0) =
      .ok (mkTokenResponse devSettings "u1" 5) :=
  (refresh_accepts_access_token devSettings dbPw 5
      (create_access_token "u1" devSettings 0) "u1" userPw rfl (by decide) rfl
      (by decide) (by decide) rfl).2
    "u1" userPw 0 (by decide) (by decide) rfl (by decide)

/-- After a successful verification cleared the token of its unique
holder, no row matches that token any more. -/
theorem findByVerificationToken_cleared (db : DB) (u : UserRec) (T : String)
    (huniq : ∀ v ∈ db, v.emailVerificationToken = some T → v = u) :
    findByVerificationToken (clearAndActivate db u.id) T = none := by
  apply List.find?_eq_none.mpr
  intro x hx
  simp only [clearAndActivate, updateUser, List.mem_map] at hx
  obtain ⟨v, hv, hxeq⟩ := hx
  subst hxeq
  by_cases hid : (v.id == u.id) = true
  · simp [hid]
  · simp only [hid, Bool.false_eq_true, if_false]
    intro hc
    have hvT : v.emailVerificationToken = some T := by simpa using hc
    have hvu := huniq v hv hvT
    subst hvu
    exact hid (by simp)

/-- C2: a magic-link token held (uniquely) by a user with a stored
expiry verifies successfully while the expiry has not passed — marking
the user verified, clearing the token and expiry fields, and returning
a token pair — and after that first success any later `verify` of the
same token fails with the 400 invalid-token error, because the token was
cleared; a `verify` whose stored expiry has passed fails with the 400
expired-token error. -/
theorem magic_link_single_use (cfg : AuthCfg) (settings : Settings)
    (db : DB) (now : Nat) (T : String) (u : UserRec) (exp : Nat)
    (hen : isProviderEnabled cfg "magic-link" = true)
    (hfind : findByVerificationToken db T = some u)
    (huniq : ∀ v ∈ db, v.emailVerificationToken = some T → v = u)
    (hexp : u.emailVerificationExpires = some exp) :
    (now ≤ exp →
       verify_magic_link cfg settings db now T =
         (.ok (mkTokenResponse settings u.id now), clearAndActivate db u.id) ∧
       (∀ v ∈ clearAndActivate db u.id, v.id = u.id →
          v.isVerified = true ∧ v.emailVerificationToken = none ∧
          v.emailVerificationExpires = none) ∧
       (∀ now2, verify_magic_link cfg settings (clearAndActivate db u.id) now2 T =
          (.error ⟨400, "Invalid or expired token"⟩, clearAndActivate db u.id))) ∧
    (exp < now →
       verify_magic_link cfg settings db now T =
         (.error ⟨400, "Token has expired"⟩, db)) := by
  constructor
  · intro hle
    have hnlt : ¬ (exp < now) := Nat.not_lt.mpr hle
    refine ⟨?_, ?_, ?_⟩
    · simp [verify_magic_link, hen, hfind, hexp, hnlt]
    · intro v hv hvid
      simp only [clearAndActivate, updateUser, List.mem_map] at hv
      obtain ⟨w, hw, hweq⟩ := hv
      subst hweq
      by_cases hid : (w.id == u.id) = true
      · simp [hid]
      · simp only [hid, Bool.false_eq_true, if_false] at hvid ⊢
        exact absurd (by simp [hvid]) hid
    · intro now2
      have hnone := findByVerificationToken_cleared db u T huniq
      simp [verify_magic_link, hen, hnone]
  · intro hgt
    simp [verify_magic_link, hen, hfind, hexp, hgt]

/-- C2 witness: on a one-user store holding token `tokT` with expiry
1000, the first verify at time 0 succeeds and a second verify of the
same token (at time 7) fails with the invalid-token error. -/
theorem magic_link_single_use_witness :
    verify_magic_link cfgAll devSettings [userInactiveToken] 0 "tokT" =
      (.ok (mkTokenResponse devSettings "u1" 0),
       clearAndActivate [userInactiveToken] "u1") ∧
    verify_magic_link cfgAll devSettings (clearAndActivate [userInactiveToken] "u1") 7 "tokT" =
      (.error ⟨400, "Invalid or expired token"⟩,
       clearAndActivate [userInactiveToken] "u1") :=
  have h := (magic_link_single_use cfgAll devSettings [userInactiveToken] 0 "tokT"
    userInactiveToken 1000 (by decide) (by decide) (by decide) rfl).1 (by decide)
  ⟨h.1, h.2.2 7⟩

/-- C10: a successful magic-link verify sets `is_active = true`
unconditionally — a user with `is_active = false` holding a valid,
unexpired verification token is reactivated (and marked verified) by
verifying it, and a token pair for that user is issued. -/
theorem magic_verify_reactivates (cfg : AuthCfg) (settings : Settings)
    (db : DB) (now : Nat) (T : String) (u : UserRec) (exp : Nat)
    (hen : isProviderEnabled cfg "magic-link" = true)
    (hfind : findByVerificationToken db T = some u)
    (_hinactive : u.isActive = false)
    (hexp : u.emailVerificationExpires = some exp)
    (hle : now ≤ exp) :
    verify_magic_link cfg settings db now T =
      (.ok (mkTokenResponse settings u.id now), clearAndActivate db u.id) ∧
    ∃ v ∈ clearAndActivate db u.id,
      v.id = u.id ∧ v.isActive = true ∧ v.isVerified = true := by
  have hnlt : ¬ (exp < now) := Nat.not_lt.mpr hle
  constructor
  · simp [verify_magic_link, hen, hfind, hexp, hnlt]
  · have humem : u ∈ db := List.mem_of_find?_eq_some hfind
    refine ⟨{ u with
                isVerified := true,
                emailVerificationToken := none,
                emailVerificationExpires := none,
                isActive := true },
            ?_, rfl, rfl, rfl⟩
    simp only [clearAndActivate, updateUser, List.mem_map]
    exact ⟨u, humem, by simp⟩

/-- C10 witness: the inactive holder of `tokT` is reactivated by the
verify at time 0. -/
theorem magic_verify_reactivates_witness :
    verify_magic_link cfgAll devSettings [userInactiveToken] 0 "tokT" =
      (.ok (mkTokenResponse devSettings "u1" 0),
       clearAndActivate [userInactiveToken] "u1") ∧
    ∃ v ∈ clearAndActivate [userInactiveToken] "u1",
      v.id = "u1" ∧ v.isActive = true ∧ v.isVerified = true :=
  magic_verify_reactivates cfgAll devSettings [userInactiveToken] 0 "tokT"
    userInactiveToken 1000 (by decide) (by decide) rfl rfl (by decide)

/-- C3: for a normalized federated identity with subject id `s` and
email `e`, both reconciliation blocks behave identically: a record
matching the provider subject id is reused with the store unchanged (no
new record); otherwise a record matching the email gets this provider's
subject-id field set — with no condition on the other provider's field,
so the link happens silently even if another provider is already
linked — and the store keeps its length; otherwise a new record is
inserted with the email, display name, subject id, `is_verified = true`
and `is_active = true`. -/
theorem federated_reconcile_cases (settings : Settings) (db : DB)
    (newId s e : String) (nm pic : Option String) (now : Nat) :
    (∀ u, findByGoogleId db s = some u →
       googleReconcile settings db newId s e nm pic now =
         (db, mkTokenResponse settings u.id now)) ∧
    (findByGoogleId db s = none → ∀ u, findByEmail db e = some u →
       googleReconcile settings db newId s e nm pic now =
         (updateUser db u.id (fun v => { v with googleId := some s }),
          mkTokenResponse settings u.id now) ∧
       { u with googleId := some s } ∈
         (googleReconcile settings db newId s e nm pic now).1 ∧
       (googleReconcile settings db newId s e nm pic now).1.length = db.length) ∧
    (findByGoogleId db s = none → findByEmail db e = none →
       googleReconcile settings db newId s e nm pic now =
         (db ++ [{ id := newId, email := e, fullName := nm, avatarUrl := pic,
                   googleId := some s, isVerified := true, isActive := true }],
          mkTokenResponse settings newId now)) ∧
    (∀ u, findByAppleId db s = some u →
       appleReconcile settings db newId s e nm now =
         (db, mkTokenResponse settings u.id now)) ∧
    (findByAppleId db s = none → ∀ u, findByEmail db e = some u →
       appleReconcile settings db newId s e nm now =
         (updateUser db u.id (fun v => { v with appleId := some s }),
          mkTokenResponse settings u.id now) ∧
       { u with appleId := some s } ∈
         (appleReconcile settings db newId s e nm now).1 ∧
       (appleReconcile settings db newId s e nm now).1.length = db.length) ∧
    (findByAppleId db s = none → findByEmail db e = none →
       appleReconcile settings db newId s e nm now =
         (db ++ [{ id := newId, email := e, fullName := nm,
                   appleId := some s, isVerified := true, isActive := true }],
          mkTokenResponse settings newId now)) := by
  refine ⟨?_, ?_, ?_, ?_, ?_, ?_⟩
  · intro u hu
    simp [googleReconcile, hu]
  · intro hgnone u hu
    have humem : u ∈ db := List.mem_of_find?_eq_some hu
    refine ⟨by simp [googleReconcile, hgnone, hu], ?_, ?_⟩
    · simp only [googleReconcile, hgnone, hu, updateUser, List.mem_map]
      exact ⟨u, humem, by simp⟩
    · simp [googleReconcile, hgnone, hu, updateUser]
  · intro hgnone henone
    simp [googleReconcile, hgnone, henone]
  · intro u hu
    simp [appleReconcile, hu]
  · intro hanone u hu
    have humem : u ∈ db := List.mem_of_find?_eq_some hu
    refine ⟨by simp [appleReconcile, hanone, hu], ?_, ?_⟩
    · simp only [appleReconcile, hanone, hu, updateUser, List.mem_map]
      exact ⟨u, humem, by simp⟩
    · simp [appleReconcile, hanone, hu, updateUser]
  · intro hanone henone
    simp [appleReconcile, hanone, henone]

/-- C3 witness: link case at a concrete input — the password account
`u1` (no Google id) is matched by email and receives `google_id = g9`
without a new record. -/
theorem federated_reconcile_cases_witness :
    googleReconcile devSettings dbPw "u9" "g9" "a@x" none none 0 =
      (updateUser dbPw "u1" (fun v => { v with googleId := some "g9" }),
       mkTokenResponse devSettings "u1" 0) ∧
    { userPw with googleId := some "g9" } ∈
      (googleReconcile devSettings dbPw "u9" "g9" "a@x" none none 0).1 ∧
    (googleReconcile devSettings dbPw "u9" "g9" "a@x" none none 0).1.length =
      dbPw.length :=
  (federated_reconcile_cases devSettings dbPw "u9" "g9" "a@x" none none 0).2.1
    (by decide) userPw (by decide)

/-- C1 counterexample: with Google enabled, a Google login whose
verified assertion carries subject id `g1` matches the existing record
`u1` — which has `is_active = false` — and still returns a token pair
minted for `u1`: a login operation issues tokens for a user whose
`is_active` is false at the moment of issuance, contradicting the
claim. -/
theorem federated_login_ignores_inactive :
    google_auth cfgAll devSettings
        (.ok { iss := "accounts.google.com", sub := "g1", email := "victim@x" })
        [userInactiveGoogle] "u9" 0 =
      (.ok (mkTokenResponse devSettings "u1" 0), [userInactiveGoogle]) ∧
    userInactiveGoogle.isActive = false :=
  ⟨by decide, rfl⟩

/-- C1 amended: the `is_active` gate holds for password login and for
session refresh (a success implies the account was active), and
magic-link verify forces `is_active = true` on the account it mints for;
but the Google / Apple federated logins do not check `is_active` on a
matched record — only the records they freshly *create* are guaranteed
active — so an inactive user can still obtain a session through a
federated login. -/
theorem session_active_gate :
    (∀ cfg settings hv (db : DB) now email pw resp,
       login_email cfg settings hv db now email pw = .ok resp →
       ∃ u, findByEmail db email = some u ∧ u.isActive = true) ∧
    (∀ settings (db : DB) now tok resp,
       refresh_token settings db now tok = .ok resp →
       ∃ uid u, tok.claims.sub = some uid ∧ findById db uid = some u ∧
         u.isActive = true) ∧
    (∀ cfg settings (db : DB) now T resp db2,
       verify_magic_link cfg settings db now T = (.ok resp, db2) →
       ∃ v, v ∈ db2 ∧ v.isActive = true ∧
         resp.accessToken.claims.sub = some v.id) ∧
    (∀ settings (db : DB) newId s e nm pic now,
       findByGoogleId db s = none → findByEmail db e = none →
       ∃ v, v ∈ (googleReconcile settings db newId s e nm pic now).1 ∧
         v.isActive = true ∧ v.id = newId) ∧
    (∀ settings (db : DB) newId s e nm now,
       findByAppleId db s = none → findByEmail db e = none →
       ∃ v, v ∈ (appleReconcile settings db newId s e nm now).1 ∧
         v.isActive = true ∧ v.id = newId) := by
  refine ⟨?_, ?_, ?_, ?_, ?_⟩
  · intro cfg settings hv db now email pw resp h
    cases hen : isProviderEnabled cfg "email-password" with
    | false => simp [login_email, hen] at h
    | true =>
      cases hfind : findByEmail db email with
      | none => simp [login_email, hen, hfind] at h
      | some u =>
        cases hhp : u.hashedPassword with
        | none => simp [login_email, hen, hfind, hhp] at h
        | some hp =>
          cases hver : hv pw hp with
          | false => simp [login_email, hen, hfind, hhp, hver] at h
          | true =>
            cases hact : u.isActive with
            | false => simp [login_email, hen, hfind, hhp, hver, hact] at h
            | true => exact ⟨u, rfl, hact⟩
  · intro settings db now tok resp h
    unfold refresh_token at h
    split at h
    · exact absurd h (by simp)
    · rename_i r hri
      unfold refreshInner at hri
      split at hri
      · exact absurd hri (by simp)
      · rename_i payload hvt
        have hpayload : payload = tok.claims := by
          unfold verify_token at hvt
          by_cases hc : (tok.key == settings.secretKey
              && decide (now ≤ tok.claims.exp)) = true
          · rw [if_pos hc] at hvt
            injection hvt with h2
            exact h2.symm
          · rw [if_neg hc] at hvt
            exact absurd hvt (by simp)
        split at hri
        · exact absurd hri (by simp)
        · rename_i uid hs
          split at hri
          · exact absurd hri (by simp)
          · split at hri
            · exact absurd hri (by simp)
            · rename_i uopt user hfind
              split at hri
              · exact absurd hri (by simp)
              · rename_i hcond
                have hact : user.isActive = true := by
                  revert hcond
                  cases user.isActive <;> simp
                exact ⟨uid, user, hpayload ▸ hs, hfind, hact⟩
  · intro cfg settings db now T resp db2 h
    cases hen : isProviderEnabled cfg "magic-link" with
    | false => simp [verify_magic_link, hen] at h
    | true =>
      cases hfind : findByVerificationToken db T with
      | none => simp [verify_magic_link, hen, hfind] at h
      | some u =>
        cases hexp : u.emailVerificationExpires with
        | none => simp [verify_magic_link, hen, hfind, hexp] at h
        | some ex =>
          by_cases hlt : ex < now
          · simp [verify_magic_link, hen, hfind, hexp, hlt] at h
          · have hres : verify_magic_link cfg settings db now T =
                (.ok (mkTokenResponse settings u.id now), clearAndActivate db u.id) := by
              simp [verify_magic_link, hen, hfind, hexp, hlt]
            rw [hres] at h
            injection h with h1 h2
            injection h1 with h1
            subst h1
            subst h2
            have humem : u ∈ db := List.mem_of_find?_eq_some hfind
            refine ⟨{ u with
                        isVerified := true,
                        emailVerificationToken := none,
                        emailVerificationExpires := none,
                        isActive := true },
                    ?_, rfl, rfl⟩
            simp only [clearAndActivate, updateUser, List.mem_map]
            exact ⟨u, humem, by simp⟩
  · intro settings db newId s e nm pic now hg he
    refine ⟨{ id := newId, email := e, fullName := nm, avatarUrl := pic,
              googleId := some s, isVerified := true, isActive := true },
            ?_, rfl, rfl⟩
    simp [googleReconcile, hg, he]
  · intro settings db newId s e nm now ha he
    refine ⟨{ id := newId, email := e, fullName := nm,
              appleId := some s, isVerified := true, isActive := true },
            ?_, rfl, rfl⟩
    simp [appleReconcile, ha, he]

/-- C1 amended witness: the password-login conjunct applied to a
concrete successful login on `dbPw`. -/
theorem session_active_gate_witness :
    ∃ u, findByEmail dbPw "a@x" = some u ∧ u.isActive = true :=
  session_active_gate.1 cfgAll devSettings (fun p h => p == h) dbPw 0 "a@x" "pw"
    (mkTokenResponse devSettings "u1" 0) rfl

end AuthCore

